import Mathlib

/-!
Verification of the handyman recommendation engine (`src/ml_model.py`,
class `HandymanMLSystem`) against its natural-language specification.

Shallow embedding conventions:

* Machine floats become `ℚ`; the float literals of the source (0.1, 0.25,
  0.2, the gazetteer coordinates) are exact decimal fractions.
* The two external ML collaborators are not part of this repository's code
  and are passed in as query-level inputs:
  - `proba` is the vector `service_classifier.predict_proba(encode(text))[0]`,
    one probability per entry of `label_encoder.classes_`;
  - `sims` is the vector `cosine_similarity(encode(text), location_embeddings)[0]`,
    one similarity per gazetteer entry;
  - `dist` is `geopy.distance.geodesic(·, ·).kilometers`.
  An embedding-backend failure is modelled by passing `none` for the
  corresponding vector.
* Python exceptions become `Except String`; a `try/except` that returns a
  value becomes a `match` on the fallible sub-computation.
* Worker records are Python dicts read with `.get(key, default)`; a field
  that may be absent is an `Option`, and a field whose stored value may have
  a type on which the scoring code would raise (a non-dict `location`, a
  non-numeric `rating`) additionally has a `malformed` case, which makes the
  per-worker scoring return `none` exactly where the source's per-worker
  `except` clause skips the worker.
-/

/-- The `rating` field of a worker dict: absent (`.get` returns the default 0),
a numeric value, or a value of a type on which `rating / 5.0` would raise. -/
inductive RatingField where
  | missing : RatingField
  | malformed : RatingField
  | val : ℚ → RatingField
deriving DecidableEq

/-- The `location` field of a worker dict: absent (`.get` returns `{}`),
a dict with optionally absent latitude/longitude entries, or a non-dict
value on which `.get('latitude', ...)` would raise. -/
inductive LocField where
  | missing : LocField
  | malformed : LocField
  | valid : Option ℚ → Option ℚ → LocField
deriving DecidableEq

/-- One element of the dataset's `workers` list.  `worker_id` is an uninterpreted
identifier (only logged by the source); `service_type` is required (the
filtering column). -/
structure Worker where
  worker_id : Nat
  service_type : String
  rating : RatingField
  location : LocField
deriving DecidableEq

/-- The loaded dataset dictionary; `workers == none` models a dict in which
the key `workers` is absent (or holds no list). -/
structure DatasetD where
  workers : Option (List Worker)
deriving DecidableEq

/-- The mutable state of a `HandymanMLSystem` instance.  The sentence
transformer and the fitted `MLPClassifier` are abstract trained artifacts whose
query-time outputs enter as the `proba`/`sims` arguments of the operations;
the state keeps what the engine logic reads: the dataset, the `trained` flag,
the class list of the label encoder, the gazetteer, and the two
last-detected tracking fields. -/
structure MLSystem where
  dataset : Option DatasetD
  trained : Bool
  serviceClasses : List String
  gazetteer : List (String × ℚ × ℚ)
  last_detected_service : Option String
  last_detected_location : Option String
deriving DecidableEq

/-- One entry of the list returned by `get_recommendations`. -/
structure ScoredWorker where
  worker : Worker
  score : ℚ
  distance_km : ℚ
  service_confidence : ℚ
deriving DecidableEq

/-- `label_encoder.classes_` after fitting: the 12 service types of the
training corpus, in the sorted order produced by `sklearn.LabelEncoder`. -/
def serviceClasses : List String :=
  ["ac_repair", "appliance_repair", "carpentry", "cleaning", "electrical",
   "flooring", "gardening", "general_maintenance", "masonry", "painting",
   "plumbing", "roofing"]

/-- The fixed gazetteer `self.location_data` built by `_train_location_model`,
in dict insertion order (`location_names = list(location_data.keys())`). -/
def locationData : List (String × ℚ × ℚ) :=
  [("colombo", 6.9271, 79.8612),
   ("kandy", 7.2906, 80.6337),
   ("galle", 6.0535, 80.2210),
   ("negombo", 7.2084, 79.8380),
   ("jaffna", 9.6615, 80.0255),
   ("kurunegala", 7.4818, 80.3609),
   ("anuradhapura", 8.3114, 80.4037),
   ("matara", 5.9549, 80.5550),
   ("ratnapura", 6.6828, 80.3992),
   ("koswatta", 6.8875, 79.8800),
   ("dehiwala", 6.8560, 79.8638),
   ("mount lavinia", 6.8374, 79.8634),
   ("moratuwa", 6.7730, 79.8816),
   ("kotte", 6.8905, 79.9015),
   ("nugegoda", 6.8649, 79.8997),
   ("maharagama", 6.8482, 79.9298),
   ("rajagiriya", 6.9084, 79.8916),
   ("battaramulla", 6.8992, 79.9186),
   ("malabe", 6.9147, 79.9731),
   ("gampaha", 7.0873, 80.0014),
   ("kalutara", 6.5854, 79.9607),
   ("panadura", 6.7132, 79.9026),
   ("kelaniya", 6.9553, 79.9192),
   ("kaduwela", 6.9381, 79.9897),
   ("pelawatta", 6.8461, 79.9062),
   ("thalawathugoda", 6.8738, 79.9750),
   ("homagama", 6.8441, 80.0022),
   ("wattala", 6.9890, 79.8917),
   ("ja ela", 7.0747, 79.8910),
   ("kiribathgoda", 6.9804, 79.9297),
   ("kottawa", 6.8207, 79.9097)]

/-- `HandymanMLSystem.__init__`. -/
def initSystem : MLSystem :=
  { dataset := none
    trained := false
    serviceClasses := []
    gazetteer := []
    last_detected_service := none
    last_detected_location := none }

/-- `HandymanMLSystem.load_dataset_from_dict`: stores the dictionary and logs
the worker count; the surrounding `try/except` can only re-raise, and no
statement of the body raises on a dict argument, so the call always
succeeds. -/
def load_dataset_from_dict (sys : MLSystem) (d : DatasetD) :
    Except String MLSystem :=
  .ok { sys with dataset := some d }

/-- `HandymanMLSystem.train_system`: loads the sentence transformer, fits the
service classifier (fixing `label_encoder.classes_`), builds the gazetteer and
its embeddings, and sets `trained`.  The trained artifacts themselves are
abstract; their query-time outputs are the `proba`/`sims` inputs below. -/
def train_system (sys : MLSystem) : MLSystem :=
  { sys with
      trained := true
      serviceClasses := serviceClasses
      gazetteer := locationData }

/-- Ordering used by `service_probs.sort(key=lambda x: x[1], reverse=True)`:
descending by predicted probability. -/
def probGE (a b : String × ℚ) : Prop := b.2 ≤ a.2

instance : DecidableRel probGE := fun a b => inferInstanceAs (Decidable (b.2 ≤ a.2))

instance : IsTotal (String × ℚ) probGE := ⟨fun a b => le_total b.2 a.2⟩

instance : IsTrans (String × ℚ) probGE := ⟨fun _ _ _ h1 h2 => le_trans h2 h1⟩

/-- Ordering used by `scored_workers.sort(key=lambda x: x['score'], reverse=True)`:
descending by total score. -/
def scoreGE (a b : ScoredWorker) : Prop := b.score ≤ a.score

instance : DecidableRel scoreGE := fun a b => inferInstanceAs (Decidable (b.score ≤ a.score))

instance : IsTotal ScoredWorker scoreGE := ⟨fun a b => le_total b.score a.score⟩

instance : IsTrans ScoredWorker scoreGE := ⟨fun _ _ _ h1 h2 => le_trans h2 h1⟩

/-- `np.argmax` on a similarity vector: index and value of the maximum,
earliest index on ties, `none` on an empty vector (where `np.argmax`
raises). -/
def argmax? : List ℚ → Option (Nat × ℚ)
  | [] => none
  | x :: xs =>
    match argmax? xs with
    | none => some (0, x)
    | some (j, m) => if x < m then some (j + 1, m) else some (0, x)

/-- Core of `predict_service` after the trained check: zip the class names
with the probability row, sort descending by probability (Python's stable
sort), keep the top 3, and record the top class name.  `none` models the
`IndexError` of `service_probs[0][0]` on an empty class list. -/
def predictPure (classes : List String) (proba : List ℚ) :
    Option (List (String × ℚ) × String) :=
  match List.insertionSort probGE (classes.zip proba) with
  | [] => none
  | top :: rest => some (((top :: rest).take 3), top.1)

/-- `HandymanMLSystem.predict_service`. -/
def predict_service (sys : MLSystem) (proba : List ℚ) :
    Except String (List (String × ℚ) × MLSystem) :=
  if sys.trained then
    match predictPure sys.serviceClasses proba with
    | none => .error "list index out of range"
    | some (preds, top) =>
        .ok (preds, { sys with last_detected_service := some top })
  else
    .error "ML system not trained"

/-- Core of `extract_location` after the trained check: arg-max over the
similarity row; above the 0.25 threshold return the gazetteer entry's
coordinates looked up by name (`location_data[location_name]`), otherwise the
fixed colombo fallback.  `none` models the uncaught `ValueError`/`IndexError`
of `np.argmax` on an empty row or an out-of-range index. -/
def extractPure (gaz : List (String × ℚ × ℚ)) (sims : List ℚ) :
    Option ((ℚ × ℚ) × String) :=
  match argmax? sims with
  | none => none
  | some (i, best) =>
    if 0.25 < best then
      match (gaz.map Prod.fst).get? i with
      | none => none
      | some name =>
        match List.lookup name gaz with
        | none => none
        | some c => some (c, name)
    else
      some ((6.9271, 79.8612), "colombo")

/-- `HandymanMLSystem.extract_location`. -/
def extract_location (sys : MLSystem) (sims : List ℚ) :
    Except String ((ℚ × ℚ) × String × MLSystem) :=
  if sys.trained then
    match extractPure sys.gazetteer sims with
    | none => .error "location resolution failed"
    | some (c, name) =>
        .ok (c, name, { sys with last_detected_location := some name })
  else
    .error "ML system not trained"

/-- `likely_services = [s for s, p in service_predictions if p > 0.1]`. -/
def likelyServices (preds : List (String × ℚ)) : List String :=
  (preds.filter (fun p => 0.1 < p.2)).map Prod.fst

/-- The eligibility filter of `get_recommendations` (lines 386-391): keep the
workers whose `service_type` is among the predicted services with probability
above 0.1; if none match, fall back to the single top-1 predicted service. -/
def eligibleWorkers (preds : List (String × ℚ)) (top : String)
    (ws : List Worker) : List Worker :=
  let rel1 := ws.filter (fun w => (likelyServices preds).contains w.service_type)
  if rel1.isEmpty then ws.filter (fun w => w.service_type == top) else rel1

/-- `worker.get('location', {})` followed by
`.get('latitude', 6.9271)` / `.get('longitude', 79.8612)`:
the provider position used for the distance computation; `none` when the
stored `location` value is not a dict, which raises inside the per-worker
`try`. -/
def locCoords : LocField → Option (ℚ × ℚ)
  | .malformed => none
  | .missing => some (6.9271, 79.8612)
  | .valid lat lng => some (lat.getD 6.9271, lng.getD 79.8612)

/-- `worker.get('rating', 0)` as a number; `none` when the stored value is
non-numeric, which makes `rating / 5.0` raise inside the per-worker `try`. -/
def ratingVal : RatingField → Option ℚ
  | .malformed => none
  | .missing => some 0
  | .val r => some r

/-- `quality_score = (rating / 5.0) * 10` (line 416). -/
def quality_score (rating : ℚ) : ℚ := rating / 5 * 10

/-- The body of the per-worker scoring loop (lines 399-429): service
confidence from the prediction list (first match, default 0), distance from
the resolved location to the provider position, the three score components,
and the total; `none` models the per-worker `except` clause skipping the
worker. -/
def scoreWorker (preds : List (String × ℚ)) (loc : ℚ × ℚ)
    (dist : ℚ × ℚ → ℚ × ℚ → ℚ) (w : Worker) : Option ScoredWorker :=
  let conf := (((preds.find? (fun p => p.1 == w.service_type)).map Prod.snd).getD 0)
  let service_score := conf * 70
  match locCoords w.location with
  | none => none
  | some wc =>
    let d := dist loc wc
    let distance_score := max 0 (20 - d * 0.2)
    match ratingVal w.rating with
    | none => none
    | some rating =>
        some { worker := w
               score := service_score + distance_score + quality_score rating
               distance_km := d
               service_confidence := conf }

/-- `scored_workers.sort(key=..., reverse=True)` followed by
`scored_workers[:max_results]` (lines 431-435): Python's `list.sort` is
stable, which for a single descending key is exactly insertion sort under
`scoreGE`. -/
def rankWorkers (scored : List ScoredWorker) (k : Nat) : List ScoredWorker :=
  (List.insertionSort scoreGE scored).take k

/-- `HandymanMLSystem.get_recommendations`.  The `match ... none => .ok ([], _)`
arms are the paths on which an exception raised inside the `try` block (or an
explicit early `return []`) makes the method return the empty list; the state
returned with them is the state at that point, since attribute writes made
before the exception persist. -/
def get_recommendations (sys : MLSystem) (proba? sims? : Option (List ℚ))
    (dist : ℚ × ℚ → ℚ × ℚ → ℚ) (max_results : Nat) :
    Except String (List ScoredWorker × MLSystem) :=
  if sys.trained then
    match proba? with
    | none => .ok ([], sys)
    | some proba =>
      match predictPure sys.serviceClasses proba with
      | none => .ok ([], sys)
      | some (preds, top) =>
        let sys1 := { sys with last_detected_service := some top }
        match sims? with
        | none => .ok ([], sys1)
        | some sims =>
          match extractPure sys1.gazetteer sims with
          | none => .ok ([], sys1)
          | some (coords, name) =>
            let sys2 := { sys1 with last_detected_location := some name }
            match sys2.dataset with
            | none => .ok ([], sys2)
            | some d =>
              match d.workers with
              | none => .ok ([], sys2)
              | some ws =>
                let rel := eligibleWorkers preds top ws
                if rel.isEmpty then .ok ([], sys2)
                else
                  .ok (rankWorkers (rel.filterMap (scoreWorker preds coords dist))
                         max_results, sys2)
  else
    .error "ML system not trained"

/-- Projection used to observe the recommendation list of a query result. -/
def recResults (r : Except String (List ScoredWorker × MLSystem)) :
    Option (List ScoredWorker) :=
  match r with
  | .ok (out, _) => some out
  | .error _ => none

/-- Projection used to observe the engine state after a query. -/
def recState (r : Except String (List ScoredWorker × MLSystem)) :
    Option MLSystem :=
  match r with
  | .ok (_, sys) => some sys
  | .error _ => none

/-- Concrete stand-in for `geopy.distance.geodesic(a, b).kilometers` used in
closed counterexamples: like the geodesic distance it is nonnegative,
symmetric, and zero exactly on coincident coordinate pairs; its numeric
values (degrees of separation rather than kilometres) play no role in any
statement below. -/
def degDist (a b : ℚ × ℚ) : ℚ := (a.1 - b.1) ^ 2 + (a.2 - b.2) ^ 2

/-! ### Concrete fixtures used by witnesses and counterexamples -/

/-- A classifier output putting all mass on `plumbing` (index 10 of the
sorted class list). -/
def probaPlumbing : List ℚ := [0, 0, 0, 0, 0, 0, 0, 0, 0, 0, 1, 0]

/-- The uniform classifier output over the 12 classes. -/
def probaUniform : List ℚ := List.replicate 12 (1/12)

/-- A similarity row matching nothing (all zeros, below threshold). -/
def simsZero : List ℚ := List.replicate 31 0

/-- A similarity row whose arg-max is the gazetteer entry `kandy`
(index 1), above threshold. -/
def simsKandy : List ℚ := [0, 1] ++ List.replicate 29 0

/-- Projection observing the prediction list of a `predict_service` call. -/
def predictResults (r : Except String (List (String × ℚ) × MLSystem)) :
    Option (List (String × ℚ)) :=
  match r with
  | .ok (p, _) => some p
  | .error _ => none

/-- `load_dataset_from_dict` followed by `train_system`, as the API server's
`init_ml_system` does at startup. -/
def sysWith (d : DatasetD) : MLSystem :=
  match load_dataset_from_dict initSystem d with
  | .ok s => train_system s
  | .error _ => initSystem

/-- A plumbing provider at the colombo coordinates with rating 5. -/
def wPlumb (i : Nat) : Worker :=
  { worker_id := i, service_type := "plumbing", rating := .val 5
    location := .valid (some 6.9271) (some 79.8612) }

/-- A gardening provider (not matched by a plumbing query). -/
def wGardener : Worker :=
  { worker_id := 3, service_type := "gardening", rating := .val 4
    location := .valid (some 6.9271) (some 79.8612) }

/-- A plumbing provider whose location dict has no latitude/longitude. -/
def wNoCoords : Worker :=
  { worker_id := 7, service_type := "plumbing", rating := .val 5
    location := .valid none none }

/-- A plumbing provider with a rating above the documented [0,5] range. -/
def wHighRating : Worker :=
  { worker_id := 9, service_type := "plumbing", rating := .val 7
    location := .valid (some 6.9271) (some 79.8612) }

/-- A plumbing provider whose stored rating is not a number. -/
def wBadRating : Worker :=
  { worker_id := 11, service_type := "plumbing", rating := .malformed
    location := .valid (some 6.9271) (some 79.8612) }

/-- The stand-in distance between the kandy and colombo gazetteer
coordinates. -/
def dKandyColombo : ℚ := degDist (7.2906, 80.6337) (6.9271, 79.8612)

/-! ### General lemmas about the embedded operations -/

theorem argmax_cons_isSome (y : ℚ) (ys : List ℚ) :
    (argmax? (y :: ys)).isSome = true := by
  simp only [argmax?]
  cases argmax? ys with
  | none => simp
  | some p =>
    obtain ⟨j, m⟩ := p
    by_cases h : y < m <;> simp [h]

theorem argmax_eq_none (l : List ℚ) (h : argmax? l = none) : l = [] := by
  cases l with
  | nil => rfl
  | cons y ys =>
    have hs := argmax_cons_isSome y ys
    rw [h] at hs
    simp at hs

theorem argmax_spec (l : List ℚ) (i : Nat) (m : ℚ)
    (h : argmax? l = some (i, m)) :
    l.get? i = some m ∧ ∀ x ∈ l, x ≤ m := by
  induction l generalizing i m with
  | nil => simp [argmax?] at h
  | cons x xs ih =>
    cases hxs : argmax? xs with
    | none =>
      have hnil := argmax_eq_none xs hxs
      subst hnil
      simp only [argmax?] at h
      simp only [Option.some.injEq, Prod.mk.injEq] at h
      obtain ⟨hi, hm⟩ := h
      subst hm
      rw [← hi]
      simp
    | some p =>
      obtain ⟨j, m2⟩ := p
      simp only [argmax?, hxs] at h
      by_cases hlt : x < m2
      · rw [if_pos hlt] at h
        simp only [Option.some.injEq, Prod.mk.injEq] at h
        obtain ⟨hi, hm⟩ := h
        subst hm
        obtain ⟨hg, hall⟩ := ih j m2 hxs
        constructor
        · rw [← hi]; simpa using hg
        · intro z hz
          rcases List.mem_cons.mp hz with hz | hz
          · exact hz ▸ le_of_lt hlt
          · exact hall z hz
      · rw [if_neg hlt] at h
        simp only [Option.some.injEq, Prod.mk.injEq] at h
        obtain ⟨hi, hm⟩ := h
        subst hm
        obtain ⟨_, hall⟩ := ih j m2 hxs
        constructor
        · rw [← hi]; simp
        · intro z hz
          rcases List.mem_cons.mp hz with hz | hz
          · exact le_of_eq hz
          · exact le_trans (hall z hz) (not_lt.mp hlt)

theorem lookup_of_get? {α : Type} [DecidableEq α] {β : Type}
    (l : List (α × β)) (hnd : (l.map Prod.fst).Nodup) (i : Nat) (e : α × β)
    (hg : l.get? i = some e) : List.lookup e.1 l = some e.2 := by
  induction l generalizing i with
  | nil => simp at hg
  | cons p ps ih =>
    simp only [List.map_cons, List.nodup_cons] at hnd
    obtain ⟨hp, hps⟩ := hnd
    cases i with
    | zero =>
      simp only [List.get?] at hg
      injection hg with hg
      subst hg
      simp [List.lookup]
    | succ j =>
      simp only [List.get?] at hg
      have hmem : e ∈ ps := List.get?_mem hg
      have hne : (e.1 == p.1) = false := by
        simp only [beq_eq_false_iff_ne, ne_eq]
        intro hcontra
        exact hp (hcontra ▸ List.mem_map_of_mem Prod.fst hmem)
      simp [List.lookup, hne, ih hps j hg]

theorem eligibleWorkers_subset (preds : List (String × ℚ)) (top : String)
    (ws : List Worker) : ∀ w ∈ eligibleWorkers preds top ws, w ∈ ws := by
  intro w hw
  unfold eligibleWorkers at hw
  by_cases h : (ws.filter
      (fun w => (likelyServices preds).contains w.service_type)).isEmpty
  · rw [if_pos h] at hw
    exact List.mem_of_mem_filter hw
  · rw [if_neg h] at hw
    exact List.mem_of_mem_filter hw

theorem filter_orderedInsert_eq (x : ScoredWorker) (l : List ScoredWorker)
    (s : ℚ) (hx : x.score = s) :
    (List.orderedInsert scoreGE x l).filter (fun z => decide (z.score = s)) =
      x :: l.filter (fun z => decide (z.score = s)) := by
  induction l with
  | nil => simp [List.orderedInsert, hx]
  | cons y ys ih =>
    by_cases h : scoreGE x y
    · simp [List.orderedInsert, h, hx]
    · have hy : ¬ y.score = s := by
        intro hc
        exact h (le_of_eq (by rw [hc, hx]))
      simp only [List.orderedInsert, if_neg h]
      rw [List.filter_cons_of_neg (by simpa using hy), ih,
        List.filter_cons_of_neg (by simpa using hy)]

theorem filter_orderedInsert_ne (x : ScoredWorker) (l : List ScoredWorker)
    (s : ℚ) (hx : ¬ x.score = s) :
    (List.orderedInsert scoreGE x l).filter (fun z => decide (z.score = s)) =
      l.filter (fun z => decide (z.score = s)) := by
  induction l with
  | nil =>
    simp only [List.orderedInsert]
    rw [List.filter_cons_of_neg (by simpa using hx)]
  | cons y ys ih =>
    by_cases h : scoreGE x y
    · simp only [List.orderedInsert, if_pos h]
      rw [List.filter_cons_of_neg (by simpa using hx)]
    · simp only [List.orderedInsert, if_neg h]
      by_cases hy : y.score = s
      · rw [List.filter_cons_of_pos (by simpa using hy), ih,
          List.filter_cons_of_pos (by simpa using hy)]
      · rw [List.filter_cons_of_neg (by simpa using hy), ih,
          List.filter_cons_of_neg (by simpa using hy)]

theorem insertionSort_filter_score (l : List ScoredWorker) (s : ℚ) :
    (List.insertionSort scoreGE l).filter (fun z => decide (z.score = s)) =
      l.filter (fun z => decide (z.score = s)) := by
  induction l with
  | nil => rfl
  | cons x xs ih =>
    simp only [List.insertionSort]
    by_cases hx : x.score = s
    · rw [filter_orderedInsert_eq x _ s hx, ih,
        List.filter_cons_of_pos (by simpa using hx)]
    · rw [filter_orderedInsert_ne x _ s hx, ih,
        List.filter_cons_of_neg (by simpa using hx)]

theorem rank_sorted (scored : List ScoredWorker) (k : Nat) :
    List.Sorted scoreGE (rankWorkers scored k) :=
  List.Pairwise.sublist (List.take_sublist k _)
    (List.sorted_insertionSort scoreGE scored)

theorem rank_length_le (scored : List ScoredWorker) (k : Nat) :
    (rankWorkers scored k).length ≤ k := by
  unfold rankWorkers
  rw [List.length_take]
  exact min_le_left _ _

theorem rank_mem (scored : List ScoredWorker) (k : Nat) (z : ScoredWorker)
    (hz : z ∈ rankWorkers scored k) : z ∈ scored := by
  unfold rankWorkers at hz
  exact ((List.perm_insertionSort scoreGE scored).mem_iff).mp
    ((List.take_sublist k _).subset hz)

theorem scoreWorker_conf_nonneg (preds : List (String × ℚ)) (w : Worker)
    (hp : ∀ p ∈ preds, (0:ℚ) ≤ p.2) :
    (0:ℚ) ≤ (((preds.find? (fun p => p.1 == w.service_type)).map Prod.snd).getD 0) := by
  cases hf : preds.find? (fun p => p.1 == w.service_type) with
  | none => simp
  | some p =>
    simpa using hp p (List.mem_of_find?_eq_some hf)

theorem scoreWorker_nonneg (preds : List (String × ℚ)) (loc : ℚ × ℚ)
    (dist : ℚ × ℚ → ℚ × ℚ → ℚ) (w : Worker) (z : ScoredWorker)
    (hp : ∀ p ∈ preds, (0:ℚ) ≤ p.2)
    (hr : ∀ r : ℚ, w.rating = .val r → 0 ≤ r)
    (hz : scoreWorker preds loc dist w = some z) :
    0 ≤ z.score := by
  unfold scoreWorker at hz
  cases hlc : locCoords w.location with
  | none => rw [hlc] at hz; cases hz
  | some wc =>
    rw [hlc] at hz
    cases hrv : ratingVal w.rating with
    | none => rw [hrv] at hz; cases hz
    | some rating =>
      rw [hrv] at hz
      simp only [Option.some.injEq] at hz
      have hrat : (0:ℚ) ≤ rating := by
        cases hwr : w.rating with
        | missing =>
          rw [hwr] at hrv
          simp only [ratingVal, Option.some.injEq] at hrv
          exact le_of_eq hrv
        | malformed => rw [hwr] at hrv; simp [ratingVal] at hrv
        | val r =>
          rw [hwr] at hrv
          simp only [ratingVal, Option.some.injEq] at hrv
          exact hrv ▸ hr r hwr
      have hconf := scoreWorker_conf_nonneg preds w hp
      have h1 : (0:ℚ) ≤ (((preds.find? (fun p => p.1 == w.service_type)).map Prod.snd).getD 0) * 70 :=
        mul_nonneg hconf (by norm_num)
      have h2 : (0:ℚ) ≤ max 0 (20 - dist loc wc * 0.2) := le_max_left _ _
      have h3 : (0:ℚ) ≤ quality_score rating := by
        unfold quality_score
        have := div_nonneg hrat (show (0:ℚ) ≤ 5 by norm_num)
        exact mul_nonneg this (by norm_num)
      rw [← hz]
      exact add_nonneg (add_nonneg h1 h2) h3


/-! ### C7: load validation -/

/-- C7 counterexample: the claim says `load(catalogData)` fails with a
`DatasetError` when the payload lacks a provider list or the list is empty;
`load_dataset_from_dict` in fact succeeds on both such payloads, merely
storing them. -/
theorem C7_load_accepts_empty :
    load_dataset_from_dict initSystem ⟨some []⟩ =
      .ok { initSystem with dataset := some ⟨some []⟩ } ∧
    load_dataset_from_dict initSystem ⟨none⟩ =
      .ok { initSystem with dataset := some ⟨none⟩ } :=
  ⟨rfl, rfl⟩

/-- C7 amended: `load_dataset_from_dict` succeeds on every payload,
storing it unchanged - including payloads that lack a provider list or
whose list is empty; no `DatasetError` is raised at load time. -/
theorem C7_load_always_succeeds (sys : MLSystem) (d : DatasetD) :
    load_dataset_from_dict sys d = .ok { sys with dataset := some d } :=
  rfl

/-! ### C2: location resolution -/

theorem locationData_names_nodup : (locationData.map Prod.fst).Nodup := by
  decide

theorem locationData_length : locationData.length = 31 := rfl

/-- C2: on a trained engine, `extract_location` never fails: it takes the
arg-max of the similarity row (the returned index carries the row's maximum
value); above the 0.25 threshold it returns the arg-max gazetteer entry's
name and coordinates, otherwise the fixed default "colombo" at
(6.9271, 79.8612), which is the first entry of the gazetteer. -/
theorem C2_extract_location_spec (sys : MLSystem) (sims : List ℚ)
    (ht : sys.trained = true)
    (hg : sys.gazetteer = locationData)
    (hl : sims.length = 31) :
    ∃ c name sys2, extract_location sys sims = .ok (c, name, sys2) ∧
      (∀ i best, argmax? sims = some (i, best) →
        sims.get? i = some best ∧ (∀ x ∈ sims, x ≤ best) ∧
        ((0.25:ℚ) < best → locationData.get? i = some (name, c)) ∧
        (¬ (0.25:ℚ) < best → name = "colombo" ∧ c = (6.9271, 79.8612))) ∧
      locationData.get? 0 = some ("colombo", 6.9271, 79.8612) := by
  cases ha : argmax? sims with
  | none =>
    exfalso
    have := argmax_eq_none sims ha
    rw [this] at hl
    simp at hl
  | some p =>
    obtain ⟨i, best⟩ := p
    obtain ⟨hget, hmax⟩ := argmax_spec sims i best ha
    have hi : i < sims.length := by
      rcases List.get?_eq_some.mp hget with ⟨hlt, _⟩
      exact hlt
    have hi31 : i < locationData.length := by
      rw [locationData_length, ← hl]
      exact hi
    by_cases hbest : (0.25:ℚ) < best
    · cases hle : locationData.get? i with
      | none =>
        exfalso
        exact absurd (List.get?_eq_none.mp hle) (not_le.mpr hi31)
      | some e =>
        have hname : (locationData.map Prod.fst).get? i = some e.1 := by
          rw [List.get?_map, hle]
          rfl
        have hlook : List.lookup e.1 locationData = some e.2 :=
          lookup_of_get? locationData locationData_names_nodup i e hle
        refine ⟨e.2, e.1, { sys with last_detected_location := some e.1 },
          ?_, ?_, rfl⟩
        · unfold extract_location extractPure
          rw [ht, hg, ha]
          simp only [if_true, if_pos hbest, hname, hlook]
        · intro j b hjb
          have hpair := Option.some.inj hjb
          have hj : i = j := congrArg Prod.fst hpair
          have hb : best = b := congrArg Prod.snd hpair
          subst hj
          subst hb
          refine ⟨hget, hmax, fun _ => ?_, fun hc => absurd hbest hc⟩
          rw [hle]
    · refine ⟨(6.9271, 79.8612), "colombo",
        { sys with last_detected_location := some "colombo" }, ?_, ?_, rfl⟩
      · unfold extract_location extractPure
        rw [ht, hg, ha]
        simp only [if_true, if_neg hbest]
      · intro j b hjb
        have hpair := Option.some.inj hjb
        have hj : i = j := congrArg Prod.fst hpair
        have hb : best = b := congrArg Prod.snd hpair
        subst hj
        subst hb
        exact ⟨hget, hmax, fun hc => absurd hc hbest, fun _ => ⟨rfl, rfl⟩⟩

theorem simsZero_length : simsZero.length = 31 := rfl

/-- C2 witness: the theorem applied to the trained engine and the all-zero
similarity row. -/
theorem C2_witness :
    ∃ c name sys2,
      extract_location (sysWith ⟨some [wPlumb 1]⟩) simsZero = .ok (c, name, sys2) ∧
      (∀ i best, argmax? simsZero = some (i, best) →
        simsZero.get? i = some best ∧ (∀ x ∈ simsZero, x ≤ best) ∧
        ((0.25:ℚ) < best → locationData.get? i = some (name, c)) ∧
        (¬ (0.25:ℚ) < best → name = "colombo" ∧ c = (6.9271, 79.8612))) ∧
      locationData.get? 0 = some ("colombo", 6.9271, 79.8612) :=
  C2_extract_location_spec (sysWith ⟨some [wPlumb 1]⟩) simsZero rfl rfl rfl

/-! ### C6: quality score -/

/-- C6 counterexample: the claim says the quality component equals
`(clamp(rating, 0, 5) / 5) * 10` and always lies in [0, 10].  The code does
not clamp: a stored rating of 7 yields `quality_score 7 = 14`, while the
clamped formula yields 10, and 14 is outside [0, 10]; a full `recommend`
run on such a provider returns total score 104 (70 + 20 + 14), above the
100 maximum the clamped formula would allow. -/
theorem C6_quality_not_clamped :
    quality_score 7 = 14 ∧
    (min (max (7:ℚ) 0) 5) / 5 * 10 = 10 ∧
    ¬ quality_score 7 ≤ 10 ∧
    recResults (get_recommendations (sysWith ⟨some [wHighRating]⟩)
        (some probaPlumbing) (some simsZero) degDist 5) =
      some [{ worker := wHighRating, score := 104, distance_km := 0,
              service_confidence := 1 }] := by
  refine ⟨by norm_num [quality_score], by norm_num, by norm_num [quality_score], ?_⟩
  norm_num [get_recommendations, sysWith, load_dataset_from_dict, train_system,
    initSystem, predictPure, serviceClasses, probaPlumbing, List.insertionSort,
    List.orderedInsert, probGE, extractPure, locationData, simsZero, argmax?,
    List.replicate, List.get?, List.lookup, eligibleWorkers, likelyServices,
    wHighRating, scoreWorker, locCoords, ratingVal, quality_score, rankWorkers,
    scoreGE, degDist, recResults]

/-- C6 amended: the quality component of an eligible provider's score is
`(rating / 5) * 10` with no clamping (a missing rating defaults to 0); it
lies in [0, 10] exactly on ratings in [0, 5], and a rating outside that
range takes the component (and hence the total score) outside the claimed
bounds. -/
theorem C6_quality_formula (preds : List (String × ℚ)) (loc : ℚ × ℚ)
    (dist : ℚ × ℚ → ℚ × ℚ → ℚ) (w : Worker) (r lat lng : ℚ)
    (hw : w.rating = .val r)
    (hloc : w.location = .valid (some lat) (some lng)) :
    ∃ z, scoreWorker preds loc dist w = some z ∧
      z.score =
        (((preds.find? (fun p => p.1 == w.service_type)).map Prod.snd).getD 0) * 70 +
          max 0 (20 - dist loc (lat, lng) * 0.2) + quality_score r ∧
      quality_score r = r / 5 * 10 ∧
      (0 ≤ r → r ≤ 5 → 0 ≤ quality_score r ∧ quality_score r ≤ 10) ∧
      (5 < r → 10 < quality_score r) := by
  have hz : scoreWorker preds loc dist w = some
      { worker := w
        score :=
          (((preds.find? (fun p => p.1 == w.service_type)).map Prod.snd).getD 0) * 70 +
            max 0 (20 - dist loc (lat, lng) * 0.2) + quality_score r
        distance_km := dist loc (lat, lng)
        service_confidence :=
          (((preds.find? (fun p => p.1 == w.service_type)).map Prod.snd).getD 0) } := by
    unfold scoreWorker
    rw [hloc, hw]
    simp only [locCoords, ratingVal, Option.getD_some]
  refine ⟨_, hz, rfl, rfl, ?_, ?_⟩
  · intro h0 h5
    have hq : quality_score r = 2 * r := by unfold quality_score; ring
    constructor <;> rw [hq] <;> linarith
  · intro h5
    have hq : quality_score r = 2 * r := by unfold quality_score; ring
    rw [hq]
    linarith

/-- C6 witness: the amended theorem applied to the rating-7 provider. -/
theorem C6_witness :
    ∃ z, scoreWorker [] (0, 0) degDist wHighRating = some z ∧
      z.score =
        ((([] : List (String × ℚ)).find?
            (fun p => p.1 == wHighRating.service_type)).map Prod.snd).getD 0 * 70 +
          max 0 (20 - degDist (0, 0) (6.9271, 79.8612) * 0.2) + quality_score 7 ∧
      quality_score 7 = 7 / 5 * 10 ∧
      (0 ≤ (7:ℚ) → (7:ℚ) ≤ 5 → 0 ≤ quality_score 7 ∧ quality_score 7 ≤ 10) ∧
      (5 < (7:ℚ) → 10 < quality_score 7) :=
  C6_quality_formula [] (0, 0) degDist wHighRating 7 6.9271 79.8612 rfl rfl

/-! ### C5: missing provider coordinates -/

/-- C5 counterexample: the claim says a provider with missing coordinates
uses the resolved location's own coordinates, yielding `distance_km = 0`.
The code instead defaults the missing fields to the fixed colombo
coordinates (6.9271, 79.8612): with the query resolved to kandy, the scored
provider's `distance_km` is the (kandy, colombo) distance, which is nonzero
under any distance that separates distinct points, as the geodesic does
(about 94.6 km here). -/
theorem C5_missing_coords_counterexample :
    recResults (get_recommendations (sysWith ⟨some [wNoCoords]⟩)
        (some probaPlumbing) (some simsKandy) degDist 5) =
      some [{ worker := wNoCoords
              score := 70 + (20 - dKandyColombo * 0.2) + 10
              distance_km := dKandyColombo
              service_confidence := 1 }] ∧
    dKandyColombo ≠ 0 := by
  constructor
  · norm_num [get_recommendations, sysWith, load_dataset_from_dict,
      train_system, initSystem, predictPure, serviceClasses, probaPlumbing,
      List.insertionSort, List.orderedInsert, probGE, extractPure,
      locationData, simsKandy, argmax?, List.replicate, List.get?,
      List.lookup, (show ("kandy" == "colombo") = false by decide),
      (show ("kandy" == "kandy") = true by decide), dKandyColombo,
      eligibleWorkers, likelyServices, wNoCoords, scoreWorker, locCoords,
      ratingVal, quality_score, rankWorkers, scoreGE, degDist, recResults]
  · norm_num [dKandyColombo, degDist]

/-- C5 amended: a provider whose location dict is absent or lacks the
latitude/longitude keys is scored (not crashed on) with the fixed default
coordinates (6.9271, 79.8612) as its position, so its `distance_km` is the
distance from the resolved location to that default - which is 0 precisely
when the resolved location sits at the default coordinates (as with the
colombo fallback), not in general. -/
theorem C5_missing_coords_default (preds : List (String × ℚ)) (loc : ℚ × ℚ)
    (dist : ℚ × ℚ → ℚ × ℚ → ℚ) (w : Worker) (r : ℚ)
    (hw : w.location = .valid none none ∨ w.location = .missing)
    (hr : w.rating = .val r) :
    ∃ z, scoreWorker preds loc dist w = some z ∧
      z.distance_km = dist loc (6.9271, 79.8612) ∧
      ((∀ a, dist a a = 0) → loc = (6.9271, 79.8612) → z.distance_km = 0) := by
  have hlc : locCoords w.location = some (6.9271, 79.8612) := by
    rcases hw with hw | hw <;> rw [hw] <;> rfl
  have hz : scoreWorker preds loc dist w = some
      { worker := w
        score :=
          (((preds.find? (fun p => p.1 == w.service_type)).map Prod.snd).getD 0) * 70 +
            max 0 (20 - dist loc (6.9271, 79.8612) * 0.2) + quality_score r
        distance_km := dist loc (6.9271, 79.8612)
        service_confidence :=
          (((preds.find? (fun p => p.1 == w.service_type)).map Prod.snd).getD 0) } := by
    unfold scoreWorker
    rw [hlc, hr]
    simp only [ratingVal, Option.getD_some]
  refine ⟨_, hz, rfl, ?_⟩
  intro hzero hloc
  show dist loc (6.9271, 79.8612) = 0
  rw [hloc]
  exact hzero _

/-- C5 witness: the amended theorem applied to the provider whose location
dict has no coordinate keys. -/
theorem C5_witness :
    ∃ z, scoreWorker [] (6.9271, 79.8612) degDist wNoCoords = some z ∧
      z.distance_km = degDist (6.9271, 79.8612) (6.9271, 79.8612) ∧
      ((∀ a, degDist a a = 0) → ((6.9271:ℚ), (79.8612:ℚ)) = (6.9271, 79.8612) →
        z.distance_km = 0) :=
  C5_missing_coords_default [] (6.9271, 79.8612) degDist wNoCoords 5
    (Or.inl rfl) rfl

/-- Inversion for a successful `get_recommendations` call: the returned
state preserves the dataset, trained flag, class list and gazetteer, and the
returned list is either empty (an early-return or swallowed-exception path)
or the ranked scoring of the eligible workers. -/
theorem get_rec_ok_cases (sys : MLSystem) (proba? sims? : Option (List ℚ))
    (dist : ℚ × ℚ → ℚ × ℚ → ℚ) (k : Nat) (out : List ScoredWorker)
    (sys2 : MLSystem)
    (h : get_recommendations sys proba? sims? dist k = .ok (out, sys2)) :
    (sys2.dataset = sys.dataset ∧ sys2.trained = sys.trained ∧
     sys2.serviceClasses = sys.serviceClasses ∧
     sys2.gazetteer = sys.gazetteer) ∧
    (out = [] ∨
      ∃ proba preds top sims coords name ws,
        proba? = some proba ∧
        predictPure sys.serviceClasses proba = some (preds, top) ∧
        sims? = some sims ∧
        extractPure sys.gazetteer sims = some (coords, name) ∧
        sys.dataset = some ⟨some ws⟩ ∧
        out = rankWorkers ((eligibleWorkers preds top ws).filterMap
                (scoreWorker preds coords dist)) k) := by
  simp only [get_recommendations] at h
  split at h
  case isTrue ht =>
    cases hp : proba? with
    | none =>
      simp only [hp, Except.ok.injEq, Prod.mk.injEq] at h
      obtain ⟨h1, h2⟩ := h
      subst h2
      exact ⟨⟨rfl, rfl, rfl, rfl⟩, Or.inl h1.symm⟩
    | some proba =>
      simp only [hp] at h
      cases hpp : predictPure sys.serviceClasses proba with
      | none =>
        simp only [hpp, Except.ok.injEq, Prod.mk.injEq] at h
        obtain ⟨h1, h2⟩ := h
        subst h2
        exact ⟨⟨rfl, rfl, rfl, rfl⟩, Or.inl h1.symm⟩
      | some pt =>
        obtain ⟨preds, top⟩ := pt
        simp only [hpp] at h
        cases hs : sims? with
        | none =>
          simp only [hs, Except.ok.injEq, Prod.mk.injEq] at h
          obtain ⟨h1, h2⟩ := h
          subst h2
          exact ⟨⟨rfl, rfl, rfl, rfl⟩, Or.inl h1.symm⟩
        | some sims =>
          simp only [hs] at h
          cases he : extractPure sys.gazetteer sims with
          | none =>
            simp only [he, Except.ok.injEq, Prod.mk.injEq] at h
            obtain ⟨h1, h2⟩ := h
            subst h2
            exact ⟨⟨rfl, rfl, rfl, rfl⟩, Or.inl h1.symm⟩
          | some cn =>
            obtain ⟨coords, name⟩ := cn
            simp only [he] at h
            cases hd : sys.dataset with
            | none =>
              simp only [hd, Except.ok.injEq, Prod.mk.injEq] at h
              obtain ⟨h1, h2⟩ := h
              subst h2
              exact ⟨⟨rfl, rfl, rfl, rfl⟩, Or.inl h1.symm⟩
            | some d =>
              simp only [hd] at h
              cases hw : d.workers with
              | none =>
                simp only [hw, Except.ok.injEq, Prod.mk.injEq] at h
                obtain ⟨h1, h2⟩ := h
                subst h2
                exact ⟨⟨rfl, rfl, rfl, rfl⟩, Or.inl h1.symm⟩
              | some ws =>
                simp only [hw] at h
                by_cases hrel : (eligibleWorkers preds top ws).isEmpty = true
                · rw [if_pos hrel] at h
                  simp only [Except.ok.injEq, Prod.mk.injEq] at h
                  obtain ⟨h1, h2⟩ := h
                  subst h2
                  exact ⟨⟨rfl, rfl, rfl, rfl⟩, Or.inl h1.symm⟩
                · rw [if_neg hrel] at h
                  simp only [Except.ok.injEq, Prod.mk.injEq] at h
                  obtain ⟨h1, h2⟩ := h
                  subst h2
                  refine ⟨⟨rfl, rfl, rfl, rfl⟩, Or.inr
                    ⟨proba, preds, top, sims, coords, name, ws,
                      rfl, hpp, rfl, he, ?_, h1.symm⟩⟩
                  rw [← hw]
  case isFalse => cases h

theorem predictPure_mem (classes : List String) (proba : List ℚ)
    (preds : List (String × ℚ)) (top : String)
    (h : predictPure classes proba = some (preds, top)) :
    ∀ p ∈ preds, p ∈ classes.zip proba := by
  unfold predictPure at h
  cases hs : List.insertionSort probGE (classes.zip proba) with
  | nil => rw [hs] at h; cases h
  | cons t rest =>
    rw [hs] at h
    simp only [Option.some.injEq, Prod.mk.injEq] at h
    obtain ⟨hpreds, -⟩ := h
    intro p hp
    rw [← hpreds] at hp
    have h1 : p ∈ t :: rest := (List.take_sublist 3 (t :: rest)).subset hp
    rw [← hs] at h1
    exact (List.perm_insertionSort probGE (classes.zip proba)).subset h1

/-- The top-3 prediction list produced by the all-mass-on-plumbing
classifier output. -/
theorem predictPure_plumbing :
    predictPure serviceClasses probaPlumbing =
      some ([("plumbing", 1), ("ac_repair", 0), ("appliance_repair", 0)],
        "plumbing") := by
  norm_num [predictPure, serviceClasses, probaPlumbing, List.insertionSort,
    List.orderedInsert, probGE]

/-- The colombo fallback produced by the all-zero similarity row. -/
theorem extractPure_fallback :
    extractPure locationData simsZero = some ((6.9271, 79.8612), "colombo") := by
  norm_num [extractPure, locationData, simsZero, argmax?, List.replicate]

/-- Full evaluation of one concrete successful query: one plumbing provider
at the colombo coordinates, a plumbing query, no location match. -/
theorem cRun_eq :
    get_recommendations (sysWith ⟨some [wPlumb 1]⟩) (some probaPlumbing)
        (some simsZero) degDist 5 =
      .ok ([{ worker := wPlumb 1, score := 100, distance_km := 0,
              service_confidence := 1 }],
        { sysWith ⟨some [wPlumb 1]⟩ with
            last_detected_service := some "plumbing"
            last_detected_location := some "colombo" }) := by
  norm_num [get_recommendations, sysWith, load_dataset_from_dict, train_system,
    initSystem, predictPure, serviceClasses, probaPlumbing, List.insertionSort,
    List.orderedInsert, probGE, extractPure, locationData, simsZero, argmax?,
    List.replicate, eligibleWorkers, likelyServices, wPlumb, scoreWorker,
    locCoords, ratingVal, quality_score, rankWorkers, scoreGE, degDist]

/-! ### C9: query-time state mutation -/

/-- C9 counterexample: the claim says a recommend call leaves every field of
the engine unchanged.  In fact a successful query writes the two tracking
attributes: starting from a freshly trained engine (both tracking fields
`none`), the state returned by `get_recommendations` carries
`last_detected_service = some "plumbing"` and
`last_detected_location = some "colombo"`. -/
theorem C9_tracking_fields_mutated :
    (recState (get_recommendations (sysWith ⟨some [wPlumb 1]⟩)
        (some probaPlumbing) (some simsZero) degDist 5)).map
      (fun s => (s.last_detected_service, s.last_detected_location)) =
      some (some "plumbing", some "colombo") ∧
    (sysWith ⟨some [wPlumb 1]⟩).last_detected_service = none ∧
    (sysWith ⟨some [wPlumb 1]⟩).last_detected_location = none := by
  refine ⟨?_, rfl, rfl⟩
  rw [cRun_eq]
  rfl

/-- C9 amended: a query mutates nothing except the two best-effort tracking
attributes: any successful `get_recommendations` leaves the dataset, the
trained flag, the class list and the gazetteer unchanged, and likewise
`predict_service` additionally leaves `last_detected_location` untouched and
`extract_location` leaves `last_detected_service` untouched. -/
theorem C9_frame (sys : MLSystem) (proba? sims? : Option (List ℚ))
    (dist : ℚ × ℚ → ℚ × ℚ → ℚ) (k : Nat) (out : List ScoredWorker)
    (sys2 : MLSystem)
    (h : get_recommendations sys proba? sims? dist k = .ok (out, sys2)) :
    (sys2.dataset = sys.dataset ∧ sys2.trained = sys.trained ∧
     sys2.serviceClasses = sys.serviceClasses ∧
     sys2.gazetteer = sys.gazetteer) ∧
    (∀ sys3 proba preds sys4,
      predict_service sys3 proba = .ok (preds, sys4) →
      sys4.dataset = sys3.dataset ∧ sys4.trained = sys3.trained ∧
      sys4.serviceClasses = sys3.serviceClasses ∧
      sys4.gazetteer = sys3.gazetteer ∧
      sys4.last_detected_location = sys3.last_detected_location) ∧
    (∀ sys3 sims c name sys4,
      extract_location sys3 sims = .ok (c, name, sys4) →
      sys4.dataset = sys3.dataset ∧ sys4.trained = sys3.trained ∧
      sys4.serviceClasses = sys3.serviceClasses ∧
      sys4.gazetteer = sys3.gazetteer ∧
      sys4.last_detected_service = sys3.last_detected_service) := by
  refine ⟨(get_rec_ok_cases sys proba? sims? dist k out sys2 h).1, ?_, ?_⟩
  · intro sys3 proba preds sys4 hps
    unfold predict_service at hps
    by_cases ht : sys3.trained = true
    · rw [if_pos ht] at hps
      cases hq : predictPure sys3.serviceClasses proba with
      | none => simp only [hq] at hps; cases hps
      | some pt =>
        obtain ⟨pr, tp⟩ := pt
        simp only [hq, Except.ok.injEq, Prod.mk.injEq] at hps
        obtain ⟨-, h2⟩ := hps
        subst h2
        exact ⟨rfl, rfl, rfl, rfl, rfl⟩
    · rw [if_neg ht] at hps; cases hps
  · intro sys3 sims c name sys4 hes
    unfold extract_location at hes
    by_cases ht : sys3.trained = true
    · rw [if_pos ht] at hes
      cases hq : extractPure sys3.gazetteer sims with
      | none => simp only [hq] at hes; cases hes
      | some cn =>
        obtain ⟨c2, n2⟩ := cn
        simp only [hq, Except.ok.injEq, Prod.mk.injEq] at hes
        obtain ⟨-, -, h2⟩ := hes
        subst h2
        exact ⟨rfl, rfl, rfl, rfl, rfl⟩
    · rw [if_neg ht] at hes; cases hes

/-- C9 witness: the amended frame theorem applied to the concrete successful
query of `cRun_eq`. -/
theorem C9_witness :
    (({ sysWith ⟨some [wPlumb 1]⟩ with
          last_detected_service := some "plumbing"
          last_detected_location := some "colombo" } : MLSystem).dataset =
        (sysWith ⟨some [wPlumb 1]⟩).dataset ∧
      ({ sysWith ⟨some [wPlumb 1]⟩ with
          last_detected_service := some "plumbing"
          last_detected_location := some "colombo" } : MLSystem).trained =
        (sysWith ⟨some [wPlumb 1]⟩).trained ∧
      ({ sysWith ⟨some [wPlumb 1]⟩ with
          last_detected_service := some "plumbing"
          last_detected_location := some "colombo" } : MLSystem).serviceClasses =
        (sysWith ⟨some [wPlumb 1]⟩).serviceClasses ∧
      ({ sysWith ⟨some [wPlumb 1]⟩ with
          last_detected_service := some "plumbing"
          last_detected_location := some "colombo" } : MLSystem).gazetteer =
        (sysWith ⟨some [wPlumb 1]⟩).gazetteer) ∧
    (∀ sys3 proba preds sys4,
      predict_service sys3 proba = .ok (preds, sys4) →
      sys4.dataset = sys3.dataset ∧ sys4.trained = sys3.trained ∧
      sys4.serviceClasses = sys3.serviceClasses ∧
      sys4.gazetteer = sys3.gazetteer ∧
      sys4.last_detected_location = sys3.last_detected_location) ∧
    (∀ sys3 sims c name sys4,
      extract_location sys3 sims = .ok (c, name, sys4) →
      sys4.dataset = sys3.dataset ∧ sys4.trained = sys3.trained ∧
      sys4.serviceClasses = sys3.serviceClasses ∧
      sys4.gazetteer = sys3.gazetteer ∧
      sys4.last_detected_service = sys3.last_detected_service) :=
  C9_frame (sysWith ⟨some [wPlumb 1]⟩) (some probaPlumbing) (some simsZero)
    degDist 5 _ _ cRun_eq

/-! ### C8: error propagation policy -/

/-- C8 counterexample: the claim says engine-level dataset errors are
surfaced as explicit failures, distinguishable from an empty result.  In
fact a trained engine whose stored dataset lacks the `workers` key answers a
query with the same successful empty list that a catalog with zero eligible
providers produces - the two cases are observationally identical. -/
theorem C8_dataset_error_swallowed :
    recResults (get_recommendations (sysWith ⟨none⟩) (some probaPlumbing)
        (some simsZero) degDist 5) = some [] ∧
    recResults (get_recommendations (sysWith ⟨some [wGardener]⟩)
        (some probaPlumbing) (some simsZero) degDist 5) = some [] := by
  constructor <;>
    norm_num [get_recommendations, sysWith, load_dataset_from_dict,
      train_system, initSystem, predictPure, serviceClasses, probaPlumbing,
      List.insertionSort, List.orderedInsert, probGE, extractPure,
      locationData, simsZero, argmax?, List.replicate, eligibleWorkers,
      likelyServices, wGardener, scoreWorker, locCoords, ratingVal,
      quality_score, rankWorkers, scoreGE, degDist, recResults]

/-- C8 amended: only the NotReady check is surfaced as an explicit failure;
an embedding failure or a missing/invalid dataset inside the query body is
swallowed and returned as a successful empty list (indistinguishable from a
query with zero eligible providers), while per-provider scoring failures (a
non-dict location or non-numeric rating) skip exactly that provider. -/
theorem C8_error_policy :
    (∀ sys : MLSystem, ∀ proba? sims? : Option (List ℚ),
     ∀ dist : ℚ × ℚ → ℚ × ℚ → ℚ, ∀ k : Nat, sys.trained = false →
      get_recommendations sys proba? sims? dist k =
        .error "ML system not trained") ∧
    (∀ sys : MLSystem, ∀ sims? : Option (List ℚ),
     ∀ dist : ℚ × ℚ → ℚ × ℚ → ℚ, ∀ k : Nat, sys.trained = true →
      get_recommendations sys none sims? dist k = .ok ([], sys)) ∧
    (∀ sys : MLSystem, ∀ proba sims : List ℚ,
     ∀ dist : ℚ × ℚ → ℚ × ℚ → ℚ, ∀ k : Nat,
     ∀ preds : List (String × ℚ), ∀ top : String,
     ∀ coords : ℚ × ℚ, ∀ name : String,
      sys.trained = true →
      predictPure sys.serviceClasses proba = some (preds, top) →
      extractPure sys.gazetteer sims = some (coords, name) →
      sys.dataset = some ⟨none⟩ →
      get_recommendations sys (some proba) (some sims) dist k =
        .ok ([], { sys with last_detected_service := some top,
                            last_detected_location := some name })) ∧
    (∀ preds : List (String × ℚ), ∀ loc : ℚ × ℚ,
     ∀ dist : ℚ × ℚ → ℚ × ℚ → ℚ, ∀ w : Worker,
      scoreWorker preds loc dist w = none ↔
        (w.location = .malformed ∨ w.rating = .malformed)) := by
  refine ⟨?_, ?_, ?_, ?_⟩
  · intro sys proba? sims? dist k ht
    unfold get_recommendations
    rw [if_neg (by rw [ht]; exact Bool.false_ne_true)]
  · intro sys sims? dist k ht
    unfold get_recommendations
    rw [if_pos ht]
  · intro sys proba sims dist k preds top coords name ht hpp he hd
    unfold get_recommendations
    rw [if_pos ht]
    simp only [hpp, he, hd]
  · intro preds loc dist w
    cases hL : w.location <;> cases hR : w.rating <;>
      simp [scoreWorker, locCoords, ratingVal, hL, hR]

/-- C8 witness: the policy theorem applied to the trained engine whose
dataset lacks the workers list. -/
theorem C8_witness :
    get_recommendations (sysWith ⟨none⟩) (some probaPlumbing) (some simsZero)
        degDist 5 =
      .ok ([], { sysWith ⟨none⟩ with
                   last_detected_service := some "plumbing"
                   last_detected_location := some "colombo" }) :=
  C8_error_policy.2.2.1 (sysWith ⟨none⟩) probaPlumbing simsZero degDist 5
    [("plumbing", 1), ("ac_repair", 0), ("appliance_repair", 0)] "plumbing"
    (6.9271, 79.8612) "colombo" rfl predictPure_plumbing extractPure_fallback
    rfl

/-! ### C1: service prediction -/

/-- C1 counterexample: the claim says `predict` returns pairs covering all
categories with probabilities summing to 1 within 1e-3.  The code returns
only `service_probs[:3]`: on the uniform classifier output (a valid
distribution, summing to 1) the returned list has exactly 3 of the 12
categories - `plumbing` is in the fixed category set but absent - and the
returned probabilities sum to 1/4, far outside 1 ± 1e-3. -/
theorem C1_only_top3_returned :
    predictResults (predict_service (sysWith ⟨some [wPlumb 1]⟩) probaUniform) =
      some [("ac_repair", 1/12), ("appliance_repair", 1/12),
            ("carpentry", 1/12)] ∧
    "plumbing" ∈ serviceClasses ∧
    "plumbing" ∉
      ([("ac_repair", (1:ℚ)/12), ("appliance_repair", 1/12),
        ("carpentry", 1/12)].map Prod.fst) ∧
    ((1:ℚ)/12 + 1/12 + 1/12) = 1/4 ∧
    ¬ ((1:ℚ) - 1/1000 ≤ 1/4 ∧ (1:ℚ)/4 ≤ 1 + 1/1000) ∧
    probaUniform.sum = 1 := by
  refine ⟨?_, by decide, by decide, by norm_num, by norm_num, by
    norm_num [probaUniform, List.replicate]⟩
  norm_num [predict_service, predictResults, sysWith, load_dataset_from_dict,
    train_system, initSystem, predictPure, serviceClasses, probaUniform,
    List.insertionSort, List.orderedInsert, probGE, List.replicate]

/-- C1 amended: on a trained engine, for any 12-entry classifier output
`predict_service` succeeds and returns exactly the top 3 (category,
probability) pairs of the full distribution, sorted by probability
descending, each pair drawn from the zip of the fixed class list with the
distribution; the full distribution covers all categories, but the returned
sublist does not, and only the full distribution (not the returned one)
sums to 1. -/
theorem C1_predict_top3 (sys : MLSystem) (proba : List ℚ)
    (ht : sys.trained = true)
    (hc : sys.serviceClasses = serviceClasses)
    (hl : proba.length = 12) :
    ∃ preds sys2, predict_service sys proba = .ok (preds, sys2) ∧
      preds.length = 3 ∧ List.Sorted probGE preds ∧
      ∀ p ∈ preds, p ∈ serviceClasses.zip proba := by
  have hz : (serviceClasses.zip proba).length = 12 := by
    rw [List.length_zip, hl]
    rfl
  have hlen := (List.perm_insertionSort probGE (serviceClasses.zip proba)).length_eq
  cases hs : List.insertionSort probGE (serviceClasses.zip proba) with
  | nil =>
    rw [hs] at hlen
    rw [← hlen] at hz
    simp at hz
  | cons t rest =>
    have hrest : (t :: rest).length = 12 := by
      rw [← hs, hlen, hz]
    have hpp : predictPure sys.serviceClasses proba =
        some ((t :: rest).take 3, t.1) := by
      rw [hc]
      unfold predictPure
      rw [hs]
    refine ⟨(t :: rest).take 3,
      { sys with last_detected_service := some t.1 }, ?_, ?_, ?_, ?_⟩
    · unfold predict_service
      rw [if_pos ht]
      simp only [hpp]
    · rw [List.length_take, hrest]
      rfl
    · exact List.Pairwise.sublist (List.take_sublist 3 (t :: rest))
        (hs ▸ List.sorted_insertionSort probGE (serviceClasses.zip proba))
    · intro p hp
      have h1 : p ∈ t :: rest := (List.take_sublist 3 (t :: rest)).subset hp
      rw [← hs] at h1
      exact (List.perm_insertionSort probGE (serviceClasses.zip proba)).subset h1

/-- C1 witness: the amended theorem applied to the trained engine and the
all-mass-on-plumbing classifier output. -/
theorem C1_witness :
    ∃ preds sys2,
      predict_service (sysWith ⟨some [wPlumb 1]⟩) probaPlumbing =
        .ok (preds, sys2) ∧
      preds.length = 3 ∧ List.Sorted probGE preds ∧
      ∀ p ∈ preds, p ∈ serviceClasses.zip probaPlumbing :=
  C1_predict_top3 (sysWith ⟨some [wPlumb 1]⟩) probaPlumbing rfl rfl rfl

/-! ### C3: eligibility filter -/

/-- C3: a provider passes the first eligibility filter exactly when its
category appears in the returned predictions with probability above 0.1;
when no provider passes it, eligibility falls back to the single top-1
predicted category; and when even the fallback leaves no eligible provider,
`get_recommendations` returns a successful empty list, not an error. -/
theorem C3_eligibility (preds : List (String × ℚ)) (top : String)
    (ws : List Worker) :
    (¬ ws.filter (fun w => (likelyServices preds).contains w.service_type) = [] →
      ∀ w, w ∈ eligibleWorkers preds top ws ↔
        (w ∈ ws ∧ ∃ p ∈ preds, p.1 = w.service_type ∧ (0.1:ℚ) < p.2)) ∧
    (ws.filter (fun w => (likelyServices preds).contains w.service_type) = [] →
      ∀ w, w ∈ eligibleWorkers preds top ws ↔
        (w ∈ ws ∧ w.service_type = top)) ∧
    (∀ sys : MLSystem, ∀ proba sims : List ℚ,
     ∀ dist : ℚ × ℚ → ℚ × ℚ → ℚ, ∀ k : Nat, ∀ ws2 : List Worker,
     ∀ coords : ℚ × ℚ, ∀ name : String,
      sys.trained = true →
      predictPure sys.serviceClasses proba = some (preds, top) →
      extractPure sys.gazetteer sims = some (coords, name) →
      sys.dataset = some ⟨some ws2⟩ →
      eligibleWorkers preds top ws2 = [] →
      get_recommendations sys (some proba) (some sims) dist k =
        .ok ([], { sys with last_detected_service := some top,
                            last_detected_location := some name })) := by
  refine ⟨?_, ?_, ?_⟩
  · intro hne w
    unfold eligibleWorkers
    rw [if_neg (by simpa [List.isEmpty_iff] using hne)]
    rw [List.mem_filter]
    simp only [List.contains, List.elem_iff, likelyServices, List.mem_map,
      List.mem_filter, decide_eq_true_eq]
    constructor
    · rintro ⟨hws, ⟨p, ⟨hpmem, hpgt⟩, hpeq⟩⟩
      exact ⟨hws, p, hpmem, hpeq, hpgt⟩
    · rintro ⟨hws, p, hpmem, hpeq, hpgt⟩
      exact ⟨hws, p, ⟨hpmem, hpgt⟩, hpeq⟩
  · intro heq w
    unfold eligibleWorkers
    rw [if_pos (by simpa [List.isEmpty_iff] using heq)]
    rw [List.mem_filter]
    simp only [beq_iff_eq]
  · intro sys proba sims dist k ws2 coords name ht hpp he hd helig
    unfold get_recommendations
    rw [if_pos ht]
    simp only [hpp, he, hd]
    rw [if_pos (List.isEmpty_iff.mpr helig)]

/-- The first-pass filter is nonempty for a plumbing provider under the
plumbing predictions. -/
theorem cFilter_plumb_ne :
    ¬ ([wPlumb 1].filter (fun w =>
        (likelyServices [("plumbing", 1), ("ac_repair", 0),
          ("appliance_repair", 0)]).contains w.service_type)) = [] := by
  norm_num [likelyServices, wPlumb]

/-- No gardening provider is eligible under the plumbing predictions, even
after the top-1 fallback. -/
theorem cElig_gardener_empty :
    eligibleWorkers [("plumbing", 1), ("ac_repair", 0),
      ("appliance_repair", 0)] "plumbing" [wGardener] = [] := by
  norm_num [eligibleWorkers, likelyServices, wGardener,
    (show ¬ ("gardening" = "plumbing") by decide),
    (show ("gardening" == "plumbing") = false by decide)]

/-- C3 witness: the eligibility theorem applied to a plumbing provider
(first-pass clause) and to a gardener-only catalog (empty-result clause). -/
theorem C3_witness :
    (wPlumb 1 ∈ eligibleWorkers [("plumbing", 1), ("ac_repair", 0),
        ("appliance_repair", 0)] "plumbing" [wPlumb 1] ↔
      (wPlumb 1 ∈ [wPlumb 1] ∧
        ∃ p ∈ [("plumbing", (1:ℚ)), ("ac_repair", 0), ("appliance_repair", 0)],
          p.1 = (wPlumb 1).service_type ∧ (0.1:ℚ) < p.2)) ∧
    get_recommendations (sysWith ⟨some [wGardener]⟩) (some probaPlumbing)
        (some simsZero) degDist 5 =
      .ok ([], { sysWith ⟨some [wGardener]⟩ with
                   last_detected_service := some "plumbing"
                   last_detected_location := some "colombo" }) :=
  ⟨(C3_eligibility [("plumbing", 1), ("ac_repair", 0), ("appliance_repair", 0)]
      "plumbing" [wPlumb 1]).1 cFilter_plumb_ne (wPlumb 1),
   (C3_eligibility [("plumbing", 1), ("ac_repair", 0), ("appliance_repair", 0)]
      "plumbing" [wGardener]).2.2 (sysWith ⟨some [wGardener]⟩) probaPlumbing
      simsZero degDist 5 [wGardener] (6.9271, 79.8612) "colombo" rfl
      predictPure_plumbing extractPure_fallback rfl cElig_gardener_empty⟩

/-! ### C4: ranking contract -/

/-- C4 counterexample: the claim says ties are broken by provider id
ascending.  Two identical plumbing providers, stored in the catalog with
ids 2 then 1, receive the same total score 100; the output keeps the
catalog order [2, 1] (Python's sort is stable), not the ascending id
order [1, 2]. -/
theorem C4_ties_not_by_id :
    (recResults (get_recommendations (sysWith ⟨some [wPlumb 2, wPlumb 1]⟩)
        (some probaPlumbing) (some simsZero) degDist 5)).map
      (List.map (fun z => (z.worker.worker_id, z.score))) =
      some [(2, 100), (1, 100)] ∧
    ¬ ([(2:Nat), 1].Sorted (fun a b => a ≤ b)) := by
  constructor
  · norm_num [get_recommendations, sysWith, load_dataset_from_dict,
      train_system, initSystem, predictPure, serviceClasses, probaPlumbing,
      List.insertionSort, List.orderedInsert, probGE, extractPure,
      locationData, simsZero, argmax?, List.replicate, eligibleWorkers,
      likelyServices, wPlumb, scoreWorker, locCoords, ratingVal,
      quality_score, rankWorkers, scoreGE, degDist, recResults]
  · simp [List.Sorted]

/-- C4 amended: a successful `recommend` returns at most `max_results`
entries, sorted by total score descending; every returned score is
nonnegative provided the classifier probabilities and the stored ratings
are nonnegative (ratings are in [0,5] by the data model); ties keep the
catalog order of the stable sort instead of being reordered by provider
id. -/
theorem C4_rank_contract (sys : MLSystem) (proba? sims? : Option (List ℚ))
    (dist : ℚ × ℚ → ℚ × ℚ → ℚ) (k : Nat) (out : List ScoredWorker)
    (sys2 : MLSystem)
    (hp : ∀ proba, proba? = some proba → ∀ x ∈ proba, (0:ℚ) ≤ x)
    (hr : ∀ ws : List Worker, ∀ w : Worker, sys.dataset = some ⟨some ws⟩ →
      w ∈ ws → ∀ r : ℚ, w.rating = .val r → 0 ≤ r)
    (h : get_recommendations sys proba? sims? dist k = .ok (out, sys2)) :
    out.length ≤ k ∧ List.Sorted scoreGE out ∧ ∀ z ∈ out, 0 ≤ z.score := by
  obtain ⟨-, hcase⟩ := get_rec_ok_cases sys proba? sims? dist k out sys2 h
  rcases hcase with rfl |
    ⟨proba, preds, top, sims, coords, name, ws, hpq, hpp, hsq, he, hd, hout⟩
  · exact ⟨by simp, by simp, by simp⟩
  · subst hout
    refine ⟨rank_length_le _ _, rank_sorted _ _, ?_⟩
    intro z hz
    obtain ⟨w, hwrel, hws⟩ := List.mem_filterMap.mp (rank_mem _ _ z hz)
    apply scoreWorker_nonneg preds coords dist w z _ _ hws
    · intro p hpmem
      obtain ⟨a, b⟩ := p
      have hzip := predictPure_mem sys.serviceClasses proba preds top hpp
        (a, b) hpmem
      exact hp proba hpq b (List.of_mem_zip hzip).2
    · intro r hrr
      exact hr ws w hd (eligibleWorkers_subset preds top ws w hwrel) r hrr

/-- All entries of the plumbing classifier output are nonnegative. -/
theorem cProba_nonneg :
    ∀ proba, (some probaPlumbing = some proba) → ∀ x ∈ proba, (0:ℚ) ≤ x := by
  intro proba hq
  cases hq
  decide

/-- All ratings of the one-plumber catalog are nonnegative. -/
theorem cRatings_nonneg :
    ∀ ws : List Worker, ∀ w : Worker,
      (sysWith ⟨some [wPlumb 1]⟩).dataset = some ⟨some ws⟩ →
      w ∈ ws → ∀ r : ℚ, w.rating = .val r → 0 ≤ r := by
  intro ws w hd hmem r hrr
  have hws : [wPlumb 1] = ws := by
    simp only [sysWith, load_dataset_from_dict, train_system, initSystem,
      Option.some.injEq, DatasetD.mk.injEq] at hd
    exact hd
  subst hws
  rcases List.mem_singleton.mp hmem with rfl
  simp only [wPlumb, RatingField.val.injEq] at hrr
  rw [← hrr]
  decide

/-- C4 witness: the ranking contract applied to the concrete successful
query of `cRun_eq`. -/
theorem C4_witness :
    ([{ worker := wPlumb 1, score := 100, distance_km := 0,
        service_confidence := 1 }] : List ScoredWorker).length ≤ 5 ∧
    List.Sorted scoreGE
      [{ worker := wPlumb 1, score := 100, distance_km := 0,
         service_confidence := 1 }] ∧
    ∀ z ∈ ([{ worker := wPlumb 1, score := 100, distance_km := 0,
              service_confidence := 1 }] : List ScoredWorker), 0 ≤ z.score :=
  C4_rank_contract (sysWith ⟨some [wPlumb 1]⟩) (some probaPlumbing)
    (some simsZero) degDist 5 _ _ cProba_nonneg cRatings_nonneg cRun_eq

/-! ### C10: stability of equal-score ordering -/

/-- C10: Python's stable sort never reorders equal-score entries: for every
successful query, the output entries holding any fixed score `s` form (after
the `max_results` truncation) a sublist - hence the same relative order - of
the catalog-ordered scored list, which itself lists eligible providers in
the order of the dataset's workers list.  No reordering by provider id
happens on ties. -/
theorem C10_stable_ties (sys : MLSystem) (proba? sims? : Option (List ℚ))
    (dist : ℚ × ℚ → ℚ × ℚ → ℚ) (k : Nat) (out : List ScoredWorker)
    (sys2 : MLSystem) (s : ℚ)
    (h : get_recommendations sys proba? sims? dist k = .ok (out, sys2)) :
    out = [] ∨
    ∃ proba preds top sims coords name ws,
      proba? = some proba ∧
      predictPure sys.serviceClasses proba = some (preds, top) ∧
      sims? = some sims ∧
      extractPure sys.gazetteer sims = some (coords, name) ∧
      sys.dataset = some ⟨some ws⟩ ∧
      out = rankWorkers ((eligibleWorkers preds top ws).filterMap
              (scoreWorker preds coords dist)) k ∧
      (out.filter (fun z => decide (z.score = s))).Sublist
        (((eligibleWorkers preds top ws).filterMap
            (scoreWorker preds coords dist)).filter
          (fun z => decide (z.score = s))) := by
  obtain ⟨-, hcase⟩ := get_rec_ok_cases sys proba? sims? dist k out sys2 h
  rcases hcase with rfl |
    ⟨proba, preds, top, sims, coords, name, ws, hpq, hpp, hsq, he, hd, hout⟩
  · exact Or.inl rfl
  · refine Or.inr ⟨proba, preds, top, sims, coords, name, ws,
      hpq, hpp, hsq, he, hd, hout, ?_⟩
    subst hout
    have h1 := List.Sublist.filter (fun z => decide (z.score = s))
      (List.take_sublist k (List.insertionSort scoreGE
        ((eligibleWorkers preds top ws).filterMap
          (scoreWorker preds coords dist))))
    rw [insertionSort_filter_score] at h1
    exact h1

/-- C10 witness: the stability theorem applied to the concrete successful
query of `cRun_eq` at score 100. -/
theorem C10_witness :
    ([{ worker := wPlumb 1, score := 100, distance_km := 0,
        service_confidence := 1 }] : List ScoredWorker) = [] ∨
    ∃ proba preds top sims coords name ws,
      (some probaPlumbing = some proba) ∧
      predictPure (sysWith ⟨some [wPlumb 1]⟩).serviceClasses proba =
        some (preds, top) ∧
      (some simsZero = some sims) ∧
      extractPure (sysWith ⟨some [wPlumb 1]⟩).gazetteer sims =
        some (coords, name) ∧
      (sysWith ⟨some [wPlumb 1]⟩).dataset = some ⟨some ws⟩ ∧
      ([{ worker := wPlumb 1, score := 100, distance_km := 0,
          service_confidence := 1 }] : List ScoredWorker) =
        rankWorkers ((eligibleWorkers preds top ws).filterMap
          (scoreWorker preds coords degDist)) 5 ∧
      (([{ worker := wPlumb 1, score := 100, distance_km := 0,
           service_confidence := 1 }] : List ScoredWorker).filter
          (fun z => decide (z.score = 100))).Sublist
        (((eligibleWorkers preds top ws).filterMap
            (scoreWorker preds coords degDist)).filter
          (fun z => decide (z.score = 100))) :=
  C10_stable_ties (sysWith ⟨some [wPlumb 1]⟩) (some probaPlumbing)
    (some simsZero) degDist 5 _ _ 100 cRun_eq
